import Mathlib

/-!
Verification of the DCBOTN Discord music bot against its specification.

The embedding below is a shallow model of the Python sources:
* `utils/queue_manager.py` — `QueueManager` with `add_song`, `add_songs`,
  `get_next_song`, `remove_song`, `shuffle`, `unshuffle`;
* `cogs/music.py` — the music cog's playback state, `_play_next`,
  `get_current_time_seconds`, `_auto_disconnect_check`;
* `utils/music_helpers.py` — `Song`, `download_audio` and its tenacity
  retry decorator;
* `utils/ui_components.py` — `JumpModal.on_submit` (seek).

Mutating methods become state-passing functions; a raised exception becomes
an `Except.error` (in Python the raise happens before any mutation, so the
caller's object is unchanged on failure, which the state-passing translation
reflects by returning no new state).  `random.shuffle` is modelled by an
oracle argument carrying the shuffled list, constrained to be a permutation
in the theorems.  Wall-clock times (`time.time()`) are integers.
-/

namespace DCBot

/-- The fields of the `Song` dataclass (`utils/music_helpers.py`) that the
playback and queue logic reads: the source URL, the (cleaned) title, the
duration in seconds, the downloaded file path (`None` before download) and
the playback start timestamp set by `_play_song` / seek. -/
structure Song where
  url : String
  title : String
  duration : Int
  file_path : Option String
  start_time : Option Int
  deriving DecidableEq, Repr

/-- `utils/exceptions.py`: `QueueFullError`, raised by `add_song`. -/
structure QueueFullError where
  msg : String
  deriving DecidableEq, Repr

/-- The state of `QueueManager` (`utils/queue_manager.py`):
pending queue, capacity, play history, history bound, shuffle flag and the
pre-shuffle snapshot used by `unshuffle`. -/
structure QueueManager where
  queue : List Song
  max_size : Nat
  history : List Song
  max_history : Nat
  shuffle_mode : Bool
  original_queue : List Song
  deriving DecidableEq, Repr

/-- `QueueManager.__init__`: empty queue and history, `max_history = 100`,
shuffle off. -/
def QueueManager.init (max_size : Nat) : QueueManager :=
  { queue := [], max_size := max_size, history := [], max_history := 100,
    shuffle_mode := false, original_queue := [] }

/-- `QueueManager.add_song`: raises `QueueFullError` when
`len(queue) >= max_size`; otherwise inserts at `position` when
`0 <= position <= len(queue)`, else appends.  Python ints may be negative,
so the position is an `Int`. -/
def add_song (song : Song) (position : Option Int) (st : QueueManager) :
    Except QueueFullError QueueManager :=
  if st.max_size ≤ st.queue.length then
    .error ⟨"Queue is full (max " ++ toString st.max_size ++ " songs)"⟩
  else
    match position with
    | some p =>
        if 0 ≤ p ∧ p ≤ (st.queue.length : Int) then
          .ok { st with queue := st.queue.insertIdx p.toNat song }
        else
          .ok { st with queue := st.queue ++ [song] }
    | none => .ok { st with queue := st.queue ++ [song] }

/-- The loop body of `QueueManager.add_songs`: append each song while the
queue is below capacity, counting how many were added; stop at capacity. -/
def add_songs_go : List Song → QueueManager → Nat → QueueManager × Nat
  | [], st, added => (st, added)
  | song :: rest, st, added =>
      if st.max_size ≤ st.queue.length then (st, added)
      else add_songs_go rest { st with queue := st.queue ++ [song] } (added + 1)

/-- `QueueManager.add_songs`: add as many of the given songs as fit and
return the new state together with the number added.  It never raises. -/
def add_songs (songs : List Song) (st : QueueManager) : QueueManager × Nat :=
  add_songs_go songs st 0

/-- `QueueManager._add_to_history`: append the song and drop the oldest
entry when the history exceeds `max_history`. -/
def add_to_history (song : Song) (st : QueueManager) : QueueManager :=
  let h := st.history ++ [song]
  if st.max_history < h.length then { st with history := h.drop 1 }
  else { st with history := h }

/-- `QueueManager.get_next_song`: pop the head of the pending queue and move
it to the history; `none` on an empty queue. -/
def get_next_song (st : QueueManager) : Option Song × QueueManager :=
  match st.queue with
  | [] => (none, st)
  | song :: rest => (some song, add_to_history song { st with queue := rest })

/-- `QueueManager.remove_song`: remove and return the song at `index` when
`0 <= index < len(queue)`, else `none` and no change. -/
def remove_song (index : Int) (st : QueueManager) : Option Song × QueueManager :=
  if 0 ≤ index ∧ index < (st.queue.length : Int) then
    (st.queue[index.toNat]?, { st with queue := st.queue.eraseIdx index.toNat })
  else (none, st)

/-- `QueueManager.shuffle`: no-op on queues of length ≤ 1; otherwise snapshot
the current order into `original_queue` (only when not already in shuffle
mode) and replace the queue by the output of `random.shuffle`, which is
passed in as the oracle argument `shuffled`. -/
def shuffle (shuffled : List Song) (st : QueueManager) : QueueManager :=
  if st.queue.length ≤ 1 then st
  else
    let st1 :=
      if st.shuffle_mode then st
      else { st with original_queue := st.queue, shuffle_mode := true }
    { st1 with queue := shuffled }

/-- `QueueManager.unshuffle`: when in shuffle mode with a non-empty snapshot,
restore the snapshot filtered to the URLs still present in the current
queue (`current_urls` membership in the source), clear the snapshot and
leave shuffle mode; otherwise do nothing. -/
def unshuffle (st : QueueManager) : QueueManager :=
  if st.shuffle_mode = true ∧ st.original_queue ≠ [] then
    { st with
      queue := st.original_queue.filter (fun s => st.queue.any (fun t => t.url == s.url)),
      shuffle_mode := false,
      original_queue := [] }
  else st

/-- A sequence of `add_song` calls, each with its position argument; a call
that raises `QueueFullError` leaves the manager unchanged (the exception
propagates past the mutation). -/
def run_adds : List (Song × Option Int) → QueueManager → QueueManager
  | [], st => st
  | (song, pos) :: rest, st =>
      match add_song song pos st with
      | .ok st2 => run_adds rest st2
      | .error _ => run_adds rest st

/-! ### The music cog's playback state (`cogs/music.py`) -/

/-- The fields of the `Music` cog that the playback, seek and inactivity
logic reads: the queue manager, the current song, the playing flag, repeat
mode, the seek offset, the accumulated pause duration, the start of the
current pause (if paused) and the last-activity timestamp. -/
structure MusicState where
  queue_manager : QueueManager
  current_song : Option Song
  is_playing : Bool
  repeat_mode : Bool
  seek_position : Int
  paused_time : Int
  pause_start : Option Int
  last_activity : Int
  deriving DecidableEq, Repr

/-- `Music.get_current_time_seconds`: when a current song with a truthy
(non-`None`, non-zero) `start_time` exists, return
`max 0 (now - start_time - paused_time - (pause_start ? now - pause_start : 0)
+ seek_position)`; otherwise return `seek_position`.  (Python's guard
`if self.current_song and self.current_song.start_time:` treats a start
time of `0` as falsy, hence the explicit zero test.) -/
def get_current_time_seconds (now : Int) (st : MusicState) : Int :=
  match st.current_song with
  | some song =>
      match song.start_time with
      | some start_time =>
          if start_time = 0 then st.seek_position
          else
            let elapsed := now - start_time - st.paused_time
            let elapsed2 :=
              match st.pause_start with
              | some ps => elapsed - (now - ps)
              | none => elapsed
            max 0 (elapsed2 + st.seek_position)
      | none => st.seek_position
  | none => st.seek_position

/-- Outcome of `JumpModal.on_submit` (`utils/ui_components.py`): the modal
replies with an error message and changes nothing when no song is playing or
the target exceeds the song duration; otherwise, while playing, it restarts
the ffmpeg source at the target and updates the timing state. -/
inductive JumpOutcome
  | rejectedNoSong
  | rejectedTooLong
  | notPlaying
  | jumped (st : MusicState)
  deriving DecidableEq, Repr

/-- `JumpModal.on_submit` after `parse_time_input` succeeded with
`target` seconds: guard on a current song, reject targets beyond the song
duration, and while playing set `seek_position := target`,
`current_song.start_time := now - target`, `paused_time := 0`,
`pause_start := none`. -/
def jump_on_submit (now target : Int) (st : MusicState) : JumpOutcome :=
  match st.current_song with
  | none => .rejectedNoSong
  | some song =>
      if song.duration < target then .rejectedTooLong
      else if st.is_playing then
        .jumped { st with
          current_song := some { song with start_time := some (now - target) },
          seek_position := target,
          paused_time := 0,
          pause_start := none }
      else .notPlaying

/-- `Song.is_downloaded` (`utils/music_helpers.py`): the file path is set
and the file exists on the backing store, which is abstracted as the
`file_exists` oracle. -/
def is_downloaded (file_exists : String → Bool) (song : Song) : Bool :=
  match song.file_path with
  | some p => file_exists p
  | none => false

/-- Errors surfaced by `_play_next`: a propagated `QueueFullError` from the
repeat-mode re-enqueue, or a playback failure (`_play_song` raising; the
source catches it, logs and re-invokes `_play_next`, which we surface as an
error instead of recursing). -/
inductive PlayError
  | queueFull (e : QueueFullError)
  | playbackFailed
  deriving DecidableEq, Repr

/-- `Music._cleanup`, restricted to the modelled fields: stop playing, drop
the current song and reset the seek/pause bookkeeping.  (The pending queue is
not touched.) -/
def cleanup (st : MusicState) : MusicState :=
  { st with
    is_playing := false
    current_song := none
    seek_position := 0
    paused_time := 0
    pause_start := none }

/-- `Music._play_next` at time `now`: reset the seek/pause bookkeeping; if
the queue is empty and there is no current song, clean up; if the queue is
empty, repeat mode is on and a current song exists, re-enqueue the current
song (a raised `QueueFullError` propagates); then pull the next song.  If one
was pulled, `_play_song` requires it to be downloaded and on success marks
playing, stamps the song's `start_time` and refreshes the activity timestamp;
otherwise clean up. -/
def play_next (now : Int) (file_exists : String → Bool) (st0 : MusicState) :
    Except PlayError MusicState :=
  let st := { st0 with seek_position := 0, paused_time := 0, pause_start := none }
  if st.queue_manager.queue.isEmpty ∧ st.current_song = none then
    .ok (cleanup st)
  else
    let queued : Except QueueFullError QueueManager :=
      match st.queue_manager.queue.isEmpty, st.repeat_mode, st.current_song with
      | true, true, some song => add_song song none st.queue_manager
      | _, _, _ => .ok st.queue_manager
    match queued with
    | .error e => .error (.queueFull e)
    | .ok qm =>
        match get_next_song qm with
        | (some next_song, qm2) =>
            if is_downloaded file_exists next_song then
              .ok { st with
                queue_manager := qm2,
                current_song := some { next_song with start_time := some now },
                is_playing := true,
                last_activity := now }
            else .error .playbackFailed
        | (none, qm2) => .ok (cleanup { st with queue_manager := qm2 })

/-- One iteration of the loop body of `Music._auto_disconnect_check`: the
session disconnects when `now - last_activity > timeout` and additionally
the cog is not playing or the pending queue is empty. -/
def auto_disconnect_fires (now timeout : Int) (st : MusicState) : Bool :=
  if timeout < now - st.last_activity then
    !st.is_playing || st.queue_manager.queue.isEmpty
  else false

/-! ### Download with retry (`utils/music_helpers.py`) -/

/-- The tenacity `retry` combinator as configured on `download_audio`
(`stop_after_attempt`, i.e. at most `fuel` attempts): call the `attempt`
oracle (one yt-dlp invocation, numbered from 1) until it succeeds or the
attempts are exhausted, in which case the last error surfaces.  The second
component counts the attempts made; `made` is the accumulator. -/
def retry_go (attempt : Nat → Except String Song) :
    Nat → Nat → Except String Song × Nat
  | 0, made => (.error "no attempts configured", made)
  | fuel + 1, made =>
      match attempt (made + 1), fuel with
      | .ok s, _ => (.ok s, made + 1)
      | .error e, 0 => (.error e, made + 1)
      | .error _, f + 1 => retry_go attempt (f + 1) (made + 1)

/-- `retry(stop=stop_after_attempt(max_attempts), wait=wait_exponential(...))`
applied to a fallible call: run up to `max_attempts` attempts.  The
exponential waits between attempts are real-time behaviour with no effect on
the result or the attempt count and are not modelled. -/
def retry_call (max_attempts : Nat) (attempt : Nat → Except String Song) :
    Except String Song × Nat :=
  retry_go attempt max_attempts 0

/-- `download_audio`: return the song unchanged with no download attempt
when it is already downloaded; otherwise perform the download under the
source's retry decorator, which is configured with `stop_after_attempt(2)`.
The `attempt` oracle stands for one yt-dlp download invocation; a successful
attempt yields the song with its file path populated. -/
def download_audio (file_exists : String → Bool)
    (attempt : Nat → Except String Song) (song : Song) :
    Except String Song × Nat :=
  if is_downloaded file_exists song then (.ok song, 0)
  else retry_call 2 attempt

/-! ### Concrete songs used by scenarios, witnesses and counterexamples -/

/-- A concrete track. -/
def t1 : Song :=
  { url := "https://youtu.be/a1", title := "T1", duration := 100,
    file_path := none, start_time := none }

/-- A concrete track. -/
def t2 : Song :=
  { url := "https://youtu.be/a2", title := "T2", duration := 110,
    file_path := none, start_time := none }

/-- A concrete track. -/
def t3 : Song :=
  { url := "https://youtu.be/a3", title := "T3", duration := 120,
    file_path := none, start_time := none }

/-- A concrete track. -/
def t4 : Song :=
  { url := "https://youtu.be/a4", title := "T4", duration := 130,
    file_path := none, start_time := none }

/-- A concrete track. -/
def t5 : Song :=
  { url := "https://youtu.be/a5", title := "T5", duration := 140,
    file_path := none, start_time := none }

/-- A track sharing its source URL with `s_dup2` but distinct from it. -/
def s_dup1 : Song :=
  { url := "https://youtu.be/dup", title := "Dup A", duration := 90,
    file_path := none, start_time := none }

/-- A track sharing its source URL with `s_dup1` but distinct from it. -/
def s_dup2 : Song :=
  { url := "https://youtu.be/dup", title := "Dup B", duration := 95,
    file_path := none, start_time := none }

/-- A playing session whose current track has duration 200s and started at
time 500, used for the seek scenario. -/
def c2_song : Song :=
  { url := "https://youtu.be/c2", title := "Seek Track", duration := 200,
    file_path := some "downloads/c2.mp3", start_time := some 500 }

/-- The cog state for the seek scenario: playing `c2_song`, no pauses, no
prior seek, empty pending queue. -/
def c2_state : MusicState :=
  { queue_manager := QueueManager.init 100, current_song := some c2_song,
    is_playing := true, repeat_mode := false, seek_position := 0,
    paused_time := 0, pause_start := none, last_activity := 0 }

/-- The cog state produced by `jump_on_submit 1000 60 c2_state`. -/
def c2_after : MusicState :=
  { c2_state with
    current_song := some { c2_song with start_time := some (1000 - 60) },
    seek_position := 60, paused_time := 0, pause_start := none }

/-- A queue holding two distinct tracks that share a source URL, about to be
shuffled. -/
def c3_state0 : QueueManager :=
  { QueueManager.init 100 with queue := [s_dup1, s_dup2] }

/-- `c3_state0` after shuffling (the oracle permutation swaps the two
tracks). -/
def c3_state1 : QueueManager := shuffle [s_dup2, s_dup1] c3_state0

/-- `c3_state1` after removing the track at index 0 (that is, `s_dup2`). -/
def c3_state2 : QueueManager := (remove_song 0 c3_state1).2

/-- A downloaded track used for the repeat-mode scenario. -/
def c4_song : Song :=
  { url := "https://youtu.be/c4", title := "Repeat Track", duration := 180,
    file_path := some "downloads/c4.mp3", start_time := some 500 }

/-- A session with an empty pending queue, repeat mode on and `c4_song`
current. -/
def c4_state : MusicState :=
  { queue_manager := QueueManager.init 100, current_song := some c4_song,
    is_playing := true, repeat_mode := true, seek_position := 0,
    paused_time := 0, pause_start := none, last_activity := 500 }

/-- An idle session: empty queue, nothing playing, last activity at t = 0. -/
def c5_idle_state : MusicState :=
  { queue_manager := QueueManager.init 100, current_song := none,
    is_playing := false, repeat_mode := false, seek_position := 0,
    paused_time := 0, pause_start := none, last_activity := 0 }

/-- A session that is actively playing with an empty pending queue and last
activity at t = 0. -/
def c5_playing_state : MusicState :=
  { queue_manager := QueueManager.init 100, current_song := some t1,
    is_playing := true, repeat_mode := false, seek_position := 0,
    paused_time := 0, pause_start := none, last_activity := 0 }

/-- A session that is actively playing with a non-empty pending queue and
last activity at t = 0. -/
def c5_busy_state : MusicState :=
  { queue_manager := { QueueManager.init 100 with queue := [t2] },
    current_song := some t1, is_playing := true, repeat_mode := false,
    seek_position := 0, paused_time := 0, pause_start := none,
    last_activity := 0 }

/-- The track produced by a successful download attempt in the retry
scenario. -/
def c6_song : Song :=
  { url := "https://youtu.be/c6", title := "Retried Track", duration := 150,
    file_path := some "downloads/c6.mp3", start_time := none }

/-- A fetch oracle that fails on attempts 1 and 2 and succeeds from attempt 3
on. -/
def c6_fail_twice (n : Nat) : Except String Song :=
  if n ≤ 2 then .error "transient download failure" else .ok c6_song

/-- A track that already has a local resource handle (file path populated),
used for the idempotence witness. -/
def c8_song : Song :=
  { url := "https://youtu.be/c8", title := "Cached Track", duration := 160,
    file_path := some "downloads/c8.mp3", start_time := none }

/-! ### Helper lemmas about `add_song` and `run_adds` -/

/-- A successful `add_song` keeps the capacity, grows the pending queue by
one, and can only have happened below capacity. -/
theorem add_song_ok_spec {song : Song} {pos : Option Int} {st st2 : QueueManager}
    (h : add_song song pos st = .ok st2) :
    st2.max_size = st.max_size ∧ st2.queue.length = st.queue.length + 1 ∧
      st.queue.length < st.max_size := by
  by_cases hfull : st.max_size ≤ st.queue.length
  · simp [add_song, hfull] at h
  · have hlt : st.queue.length < st.max_size := Nat.lt_of_not_le hfull
    match pos with
    | none =>
      simp only [add_song, if_neg hfull, Except.ok.injEq] at h
      subst h
      simp [hlt]
    | some p =>
      simp only [add_song, if_neg hfull] at h
      by_cases hp : 0 ≤ p ∧ p ≤ (st.queue.length : Int)
      · rw [if_pos hp] at h
        obtain ⟨rfl⟩ := Except.ok.inj h
        refine ⟨rfl, ?_, hlt⟩
        exact List.length_insertIdx _ _ (Int.toNat_le.mpr hp.2)
      · rw [if_neg hp] at h
        obtain ⟨rfl⟩ := Except.ok.inj h
        simp [hlt]

/-- Running a sequence of `add_song` calls preserves the capacity field and
the capacity bound on the pending queue length. -/
theorem run_adds_spec : ∀ (ops : List (Song × Option Int)) (st : QueueManager),
    st.queue.length ≤ st.max_size →
    (run_adds ops st).max_size = st.max_size ∧
      (run_adds ops st).queue.length ≤ st.max_size
  | [], _, h => ⟨rfl, h⟩
  | (song, pos) :: rest, st, h => by
    cases hadd : add_song song pos st with
    | ok st2 =>
      obtain ⟨hmax, hlen, hlt⟩ := add_song_ok_spec hadd
      have ih := run_adds_spec rest st2 (by omega)
      simp only [run_adds, hadd]
      exact ⟨by omega, by omega⟩
    | error e =>
      simp only [run_adds, hadd]
      exact run_adds_spec rest st h

/-- Claim C1: the pending queue length never exceeds the configured capacity
under any sequence of single-item enqueues, and an enqueue on a queue already
holding capacity-many tracks raises `QueueFullError` and leaves the pending
queue exactly unchanged. -/
theorem c1_enqueue_respects_capacity :
    (∀ (ops : List (Song × Option Int)) (st : QueueManager),
        st.queue.length ≤ st.max_size →
        (run_adds ops st).queue.length ≤ st.max_size) ∧
    (∀ (song : Song) (pos : Option Int) (st : QueueManager),
        st.queue.length = st.max_size →
        add_song song pos st =
          .error ⟨"Queue is full (max " ++ toString st.max_size ++ " songs)"⟩ ∧
          run_adds [(song, pos)] st = st) := by
  constructor
  · exact fun ops st h => (run_adds_spec ops st h).2
  · intro song pos st h
    have hfull : st.max_size ≤ st.queue.length := Nat.le_of_eq h.symm
    constructor
    · simp [add_song, hfull]
    · simp [run_adds, add_song, hfull]

/-- Witness for C1 at a concrete queue of capacity 1. -/
theorem c1_enqueue_respects_capacity_witness :
    (run_adds [(t1, none), (t2, none)] (QueueManager.init 1)).queue.length ≤ 1 ∧
      add_song t2 none { QueueManager.init 1 with queue := [t1] } =
        .error ⟨"Queue is full (max 1 songs)"⟩ :=
  ⟨c1_enqueue_respects_capacity.1 [(t1, none), (t2, none)] (QueueManager.init 1)
      (by decide),
    (c1_enqueue_respects_capacity.2 t2 none { QueueManager.init 1 with queue := [t1] }
      (by decide)).1⟩

/-! ### `add_songs` (enqueueMany) -/

/-- Closed form of the `add_songs` loop: starting below or at capacity, it
appends exactly the tracks that fit and counts them. -/
theorem add_songs_go_spec : ∀ (songs : List Song) (st : QueueManager) (added : Nat),
    st.queue.length ≤ st.max_size →
    add_songs_go songs st added =
      ({ st with queue := st.queue ++ songs.take (st.max_size - st.queue.length) },
        added + min songs.length (st.max_size - st.queue.length))
  | [], st, added, _ => by simp [add_songs_go]
  | song :: rest, st, added, h => by
    by_cases hfull : st.max_size ≤ st.queue.length
    · have hzero : st.max_size - st.queue.length = 0 := by omega
      simp [add_songs_go, hfull, hzero]
    · have hlt : st.queue.length < st.max_size := Nat.lt_of_not_le hfull
      obtain ⟨k, hk⟩ : ∃ k, st.max_size - st.queue.length = k + 1 :=
        ⟨st.max_size - st.queue.length - 1, by omega⟩
      have ih := add_songs_go_spec rest
        { st with queue := st.queue ++ [song] } (added + 1) (by simp; omega)
      simp only [List.length_append, List.length_cons, List.length_nil] at ih
      have hk2 : st.max_size - (st.queue.length + (0 + 1)) = k := by omega
      rw [hk2] at ih
      simp only [add_songs_go, if_neg hfull, ih, hk, Prod.mk.injEq]
      constructor
      · simp [List.take_succ_cons, List.append_assoc]
      · simp only [List.length_cons]
        omega

/-- Claim C7: `add_songs` (enqueueMany) never fails: it appends tracks one at
a time until capacity is reached and returns exactly the number that fit; in
particular T1..T5 into an empty capacity-3 queue yields count 3 and pending
queue [T1, T2, T3]. -/
theorem c7_enqueue_many_partial_success :
    (∀ (songs : List Song) (st : QueueManager),
        st.queue.length ≤ st.max_size →
        add_songs songs st =
          ({ st with queue := st.queue ++ songs.take (st.max_size - st.queue.length) },
            min songs.length (st.max_size - st.queue.length))) ∧
    (add_songs [t1, t2, t3, t4, t5] (QueueManager.init 3)).2 = 3 ∧
      (add_songs [t1, t2, t3, t4, t5] (QueueManager.init 3)).1.queue = [t1, t2, t3] := by
  refine ⟨fun songs st h => ?_, by decide, by decide⟩
  simpa [add_songs] using add_songs_go_spec songs st 0 h

/-- Witness for C7 at a concrete queue of capacity 2. -/
theorem c7_enqueue_many_partial_success_witness :
    add_songs [t1, t2, t3] (QueueManager.init 2) =
      ({ QueueManager.init 2 with
          queue := (QueueManager.init 2).queue ++
            [t1, t2, t3].take ((QueueManager.init 2).max_size -
              (QueueManager.init 2).queue.length) },
        min [t1, t2, t3].length
          ((QueueManager.init 2).max_size - (QueueManager.init 2).queue.length)) :=
  c7_enqueue_many_partial_success.1 [t1, t2, t3] (QueueManager.init 2) (by decide)

/-! ### Out-of-range insert positions -/

/-- Claim C10: with free capacity, an out-of-range position (negative or
greater than the queue length) does not fail: the source's range guard sends
the call to the append branch, exactly as if no position had been given. -/
theorem c10_out_of_range_position_appends :
    ∀ (song : Song) (p : Int) (st : QueueManager),
      st.queue.length < st.max_size →
      (p < 0 ∨ (st.queue.length : Int) < p) →
      add_song song (some p) st = .ok { st with queue := st.queue ++ [song] } ∧
        add_song song (some p) st = add_song song none st := by
  intro song p st hcap hout
  have hfull : ¬ st.max_size ≤ st.queue.length := Nat.not_le.mpr hcap
  have hp : ¬ (0 ≤ p ∧ p ≤ (st.queue.length : Int)) := by omega
  constructor
  · simp [add_song, hfull, hp]
  · simp [add_song, hfull, hp]

/-- Witness for C10: position -1 and position 5 on a singleton queue of
capacity 3 both append at the end. -/
theorem c10_out_of_range_position_appends_witness :
    add_song t2 (some (-1)) { QueueManager.init 3 with queue := [t1] } =
      .ok { QueueManager.init 3 with queue := [t1] ++ [t2] } ∧
      add_song t2 (some (-1)) { QueueManager.init 3 with queue := [t1] } =
        add_song t2 none { QueueManager.init 3 with queue := [t1] } :=
  c10_out_of_range_position_appends t2 (-1) { QueueManager.init 3 with queue := [t1] }
    (by decide) (by decide)

/-! ### URL uniqueness (not enforced by the source) -/

/-- Counterexample to C9 as stated: enqueuing two distinct tracks with the
same source URL succeeds and leaves both in the pending queue, so an enqueue
operation can produce two pending tracks with the same source URL. -/
theorem c9_duplicate_url_counterexample :
    (run_adds [(s_dup1, none), (s_dup2, none)] (QueueManager.init 100)).queue =
        [s_dup1, s_dup2] ∧
      s_dup1.url = s_dup2.url ∧ s_dup1 ≠ s_dup2 := by decide

/-- Claim C9 amended: enqueue does not enforce URL uniqueness.  With free
capacity, `add_song` succeeds by appending even when a pending track already
carries the same source URL, after which at least two pending tracks share
that URL. -/
theorem c9_no_url_uniqueness_enforced :
    ∀ (song : Song) (st : QueueManager),
      st.queue.length < st.max_size →
      (∃ t, t ∈ st.queue ∧ t.url = song.url) →
      add_song song none st = .ok { st with queue := st.queue ++ [song] } ∧
        2 ≤ ((st.queue ++ [song]).filter (fun t => t.url == song.url)).length := by
  intro song st hcap hdup
  have hfull : ¬ st.max_size ≤ st.queue.length := Nat.not_le.mpr hcap
  refine ⟨by simp [add_song, hfull], ?_⟩
  obtain ⟨t, ht, hurl⟩ := hdup
  have hmem : t ∈ st.queue.filter (fun t => t.url == song.url) :=
    List.mem_filter.mpr ⟨ht, by simp [hurl]⟩
  have hpos : 0 < (st.queue.filter (fun t => t.url == song.url)).length :=
    List.length_pos.mpr (List.ne_nil_of_mem hmem)
  rw [List.filter_append]
  simp only [List.length_append]
  have : (([song]).filter (fun t => t.url == song.url)).length = 1 := by simp
  omega

/-- Witness for C9's amended statement: a second track with an already-queued
URL is appended and the queue then holds two tracks with that URL. -/
theorem c9_no_url_uniqueness_enforced_witness :
    add_song s_dup2 none { QueueManager.init 100 with queue := [s_dup1] } =
      .ok { QueueManager.init 100 with queue := [s_dup1] ++ [s_dup2] } ∧
      2 ≤ (([s_dup1] ++ [s_dup2]).filter (fun t => t.url == s_dup2.url)).length :=
  c9_no_url_uniqueness_enforced s_dup2 { QueueManager.init 100 with queue := [s_dup1] }
    (by decide) ⟨s_dup1, by decide, by decide⟩

/-! ### Shuffle / unshuffle -/

/-- Counterexample to C3 as stated: with two distinct pending tracks sharing
a source URL, shuffling, removing one of them and unshuffling re-inserts the
removed track, because `unshuffle` filters the snapshot by the URLs still
present rather than by the tracks still present. -/
theorem c3_unshuffle_reinserts_counterexample :
    [s_dup2, s_dup1].Perm c3_state0.queue ∧
      (remove_song 0 c3_state1).1 = some s_dup2 ∧
      c3_state2.queue = [s_dup1] ∧
      s_dup2 ∉ c3_state2.queue ∧
      (unshuffle c3_state2).queue = [s_dup1, s_dup2] ∧
      s_dup2 ∈ (unshuffle c3_state2).queue := by decide

/-- Claim C3 amended: shuffle followed immediately by unshuffle (no
intervening membership change) restores the exact original order; shuffling
again while already shuffled does not overwrite the saved pre-shuffle order;
and unshuffle after removals restores the saved order filtered to the tracks
still present — without re-inserting removed tracks — provided the saved
order carries pairwise distinct source URLs (without that proviso a removed
track sharing a URL with a remaining track is re-inserted, as the
counterexample shows). -/
theorem c3_shuffle_unshuffle :
    (∀ (st : QueueManager) (shuffled : List Song),
        shuffled.Perm st.queue → st.shuffle_mode = false →
        (unshuffle (shuffle shuffled st)).queue = st.queue) ∧
    (∀ (st : QueueManager) (shuffled : List Song),
        st.shuffle_mode = true →
        (shuffle shuffled st).original_queue = st.original_queue ∧
          (shuffle shuffled st).shuffle_mode = true) ∧
    (∀ (st : QueueManager),
        st.shuffle_mode = true → st.original_queue ≠ [] →
        (st.original_queue.map Song.url).Nodup →
        (∀ t ∈ st.queue, t ∈ st.original_queue) →
        (unshuffle st).queue =
            st.original_queue.filter (fun s => decide (s ∈ st.queue)) ∧
          ∀ s ∈ (unshuffle st).queue, s ∈ st.queue) := by
  refine ⟨?_, ?_, ?_⟩
  · intro st shuffled hperm hmode
    by_cases hlen : st.queue.length ≤ 1
    · simp [shuffle, hlen, unshuffle, hmode]
    · have hne : st.queue ≠ [] := by
        intro h
        rw [h] at hlen
        simp at hlen
      simp only [shuffle, if_neg hlen, hmode, if_neg (Bool.false_ne_true)]
      simp only [unshuffle]
      rw [if_pos ⟨by trivial, hne⟩]
      exact List.filter_eq_self.mpr fun s hs => by
        have : s ∈ shuffled := hperm.symm.subset hs
        exact List.any_eq_true.mpr ⟨s, this, by simp⟩
  · intro st shuffled hmode
    by_cases hlen : st.queue.length ≤ 1
    · simp [shuffle, hlen, hmode]
    · simp [shuffle, hlen, hmode]
  · intro st hmode hne hnodup hsub
    have hfilter :
        st.original_queue.filter (fun s => st.queue.any (fun t => t.url == s.url)) =
          st.original_queue.filter (fun s => decide (s ∈ st.queue)) := by
      refine List.filter_congr fun s hs => ?_
      rw [Bool.eq_iff_iff]
      simp only [List.any_eq_true, beq_iff_eq, decide_eq_true_eq]
      constructor
      · rintro ⟨t, ht, hurl⟩
        have ht2 : t ∈ st.original_queue := hsub t ht
        have heq : t = s := List.inj_on_of_nodup_map hnodup ht2 hs hurl
        exact heq ▸ ht
      · intro hq
        exact ⟨s, hq, rfl⟩
    have hqueue : (unshuffle st).queue =
        st.original_queue.filter (fun s => decide (s ∈ st.queue)) := by
      simp only [unshuffle]
      rw [if_pos ⟨hmode, hne⟩, hfilter]
    refine ⟨hqueue, fun s hs => ?_⟩
    rw [hqueue] at hs
    simpa using (List.mem_filter.mp hs).2

/-- Witness for C3's amended statement on a concrete three-track queue with
distinct URLs: shuffle, remove the middle track of the shuffled queue, then
unshuffle. -/
theorem c3_shuffle_unshuffle_witness :
    (unshuffle (shuffle [t3, t2, t1] { QueueManager.init 100 with
        queue := [t1, t2, t3] })).queue = [t1, t2, t3] ∧
      (unshuffle { QueueManager.init 100 with
          queue := [t3, t1]
          shuffle_mode := true
          original_queue := [t1, t2, t3] }).queue =
        [t1, t2, t3].filter (fun s => decide (s ∈ [t3, t1])) :=
  ⟨c3_shuffle_unshuffle.1 { QueueManager.init 100 with queue := [t1, t2, t3] }
      [t3, t2, t1] (by decide) rfl,
    (c3_shuffle_unshuffle.2.2 { QueueManager.init 100 with
        queue := [t3, t1]
        shuffle_mode := true
        original_queue := [t1, t2, t3] }
      rfl (by decide) (by decide) (by decide)).1⟩

/-! ### Seek and elapsed time -/

/-- Claim C2 fails on the code: seeking sets BOTH `start_time := now - target`
AND `seek_position := target`, while `get_current_time_seconds` adds
`seek_position` on top of `now - start_time`, so the elapsed time right
after `seek(60)` evaluates to 120 (= 2 × 60), not 60, and to 130 (not 70)
after 10 further seconds — the seek offset is double-counted. -/
theorem c2_seek_elapsed_double_counts :
    jump_on_submit 1000 60 c2_state = .jumped c2_after ∧
      get_current_time_seconds 1000 c2_after = 120 ∧
      get_current_time_seconds 1010 c2_after = 130 ∧
      ¬ get_current_time_seconds 1000 c2_after = 60 ∧
      ¬ get_current_time_seconds 1010 c2_after = 70 := by decide

/-! ### Repeat mode advance protocol -/

/-- `_add_to_history` never touches the pending queue. -/
theorem add_to_history_queue (song : Song) (st : QueueManager) :
    (add_to_history song st).queue = st.queue := by
  unfold add_to_history
  dsimp only
  split <;> rfl

/-- Claim C4: with an empty pending queue, repeat mode on, a current track
and positive capacity, the advance protocol re-enqueues the current track,
immediately dequeues it again, and ends with the same track current (with a
fresh start time) and the pending queue still empty. -/
theorem c4_repeat_requeues_current :
    ∀ (st : MusicState) (song : Song) (now : Int) (fe : String → Bool),
      st.queue_manager.queue = [] →
      st.repeat_mode = true →
      st.current_song = some song →
      1 ≤ st.queue_manager.max_size →
      is_downloaded fe song = true →
      ∃ st2, play_next now fe st = .ok st2 ∧
        st2.current_song = some { song with start_time := some now } ∧
        st2.queue_manager.queue = [] ∧
        st2.is_playing = true := by
  intro st song now fe hq hr hc hcap hdl
  have hfull : ¬ st.queue_manager.max_size ≤ st.queue_manager.queue.length := by
    rw [hq]
    simp only [List.length_nil, Nat.le_zero]
    omega
  refine ⟨{ st with
      queue_manager := add_to_history song { st.queue_manager with queue := [] }
      current_song := some { song with start_time := some now }
      is_playing := true
      last_activity := now
      seek_position := 0
      paused_time := 0
      pause_start := none }, ?_, rfl, ?_, rfl⟩
  · have hzero : ¬ st.queue_manager.max_size = 0 := by omega
    simp [play_next, hq, hc, hr, hdl, add_song, get_next_song, hfull, hzero]
  · exact add_to_history_queue song { st.queue_manager with queue := [] }

/-- Witness for C4 at a concrete session with capacity 100 and a downloaded
current track. -/
theorem c4_repeat_requeues_current_witness :
    ∃ st2, play_next 1234 (fun _ => true) c4_state = .ok st2 ∧
      st2.current_song = some { c4_song with start_time := some 1234 } ∧
      st2.queue_manager.queue = [] ∧
      st2.is_playing = true :=
  c4_repeat_requeues_current c4_state c4_song 1234 (fun _ => true)
    rfl rfl rfl (by decide) (by decide)

/-! ### Inactivity auto-disconnect -/

/-- Counterexample to C5 as stated: with the inactivity threshold exceeded,
playback ACTIVE and the pending queue empty, the check still disconnects,
so the "exactly when ... AND nothing is playing" characterisation is false. -/
theorem c5_disconnect_while_playing_counterexample :
    auto_disconnect_fires 305 300 c5_playing_state = true ∧
      c5_playing_state.is_playing = true ∧
      c5_playing_state.queue_manager.queue.isEmpty = true ∧
      (300 : Int) < 305 - c5_playing_state.last_activity := by decide

/-- Claim C5 amended: the check disconnects exactly when the time since last
activity exceeds the timeout AND (nothing is playing OR the pending queue is
empty).  Consequently it never disconnects while the queue is non-empty and
playback is active, Scenario F (timeout 300, check at t = 305, idle, empty)
disconnects, and a check at t = 200 does not. -/
theorem c5_auto_disconnect_exact_condition :
    (∀ (now timeout : Int) (st : MusicState),
        auto_disconnect_fires now timeout st = true ↔
          timeout < now - st.last_activity ∧
            (st.is_playing = false ∨ st.queue_manager.queue.isEmpty = true)) ∧
    (∀ (now timeout : Int) (st : MusicState),
        st.is_playing = true → st.queue_manager.queue ≠ [] →
        auto_disconnect_fires now timeout st = false) ∧
    auto_disconnect_fires 305 300 c5_idle_state = true ∧
    auto_disconnect_fires 200 300 c5_idle_state = false := by
  refine ⟨?_, ?_, by decide, by decide⟩
  · intro now timeout st
    unfold auto_disconnect_fires
    split
    · rename_i h
      simp [h, Bool.or_eq_true, Bool.not_eq_true']
    · rename_i h
      simp [h]
  · intro now timeout st hp hq
    unfold auto_disconnect_fires
    split
    · cases h : st.queue_manager.queue with
      | nil => exact absurd h hq
      | cons a l => simp [hp, h]
    · rfl

/-- Witness for C5's amended statement: an actively playing session with a
non-empty queue is not disconnected even long past the timeout. -/
theorem c5_auto_disconnect_exact_condition_witness :
    auto_disconnect_fires 10000 300 c5_busy_state = false :=
  c5_auto_disconnect_exact_condition.2.1 10000 300 c5_busy_state rfl (by decide)

/-! ### Retry with bounded attempts -/

/-- When every attempt fails, the retry loop makes exactly `fuel` further
attempts and surfaces the last error. -/
theorem retry_go_all_fail (attempt : Nat → Except String Song)
    (hfail : ∀ n, ∃ e, attempt n = .error e) :
    ∀ (fuel made : Nat), 0 < fuel →
      ∃ e, retry_go attempt fuel made = (.error e, made + fuel)
  | 0, _, h => absurd h (by simp)
  | 1, made, _ => by
    obtain ⟨e, he⟩ := hfail (made + 1)
    exact ⟨e, by rw [retry_go.eq_def]; simp [he]⟩
  | fuel + 2, made, _ => by
    obtain ⟨e, he⟩ := hfail (made + 1)
    obtain ⟨e2, he2⟩ := retry_go_all_fail attempt hfail (fuel + 1) (made + 1) (by omega)
    refine ⟨e2, ?_⟩
    rw [retry_go.eq_def]
    simp only [he, he2]
    rw [Prod.mk.injEq]
    exact ⟨rfl, by omega⟩

/-- The retry loop never makes more attempts than its budget. -/
theorem retry_go_attempts_le (attempt : Nat → Except String Song) :
    ∀ (fuel made : Nat), (retry_go attempt fuel made).2 ≤ made + fuel
  | 0, made => by simp [retry_go]
  | fuel + 1, made => by
    rw [retry_go.eq_def]
    cases hA : attempt (made + 1) with
    | ok s => simp [hA]
    | error e =>
      cases fuel with
      | zero => simp [hA]
      | succ f =>
        have ih := retry_go_attempts_le attempt (f + 1) (made + 1)
        simp only [hA]
        omega

/-- Claim C6: transient download failures are retried a bounded number of
times and retry exhaustion surfaces as a terminal error; with a fetch that
fails twice and then succeeds, a retry budget of 3 attempts yields success
with exactly 3 attempts made.  The source's own `download_audio` decorator
runs this mechanism with `stop_after_attempt(2)`.  (The exponential waits
between attempts are real-time behaviour that does not affect results or
attempt counts.) -/
theorem c6_retry_bounded_scenario :
    retry_call 3 c6_fail_twice = (.ok c6_song, 3) ∧
      (∀ (attempt : Nat → Except String Song) (max_attempts : Nat),
          0 < max_attempts → (∀ n, ∃ e, attempt n = .error e) →
          ∃ e, retry_call max_attempts attempt = (.error e, max_attempts)) ∧
      (∀ (attempt : Nat → Except String Song) (max_attempts : Nat),
          (retry_call max_attempts attempt).2 ≤ max_attempts) ∧
      (∀ (fe : String → Bool) (attempt : Nat → Except String Song) (song : Song),
          is_downloaded fe song = false →
          download_audio fe attempt song = retry_call 2 attempt) := by
  refine ⟨rfl, ?_, ?_, ?_⟩
  · intro attempt m hm hfail
    simpa [retry_call] using retry_go_all_fail attempt hfail m 0 hm
  · intro attempt m
    simpa [retry_call] using retry_go_attempts_le attempt m 0
  · intro fe attempt song h
    simp [download_audio, h]

/-- Witness for C6: a permanently failing fetch under budget 3 surfaces a
terminal error after exactly 3 attempts. -/
theorem c6_retry_bounded_scenario_witness :
    ∃ e, retry_call 3 (fun _ => (.error "network unreachable" : Except String Song)) =
      (.error e, 3) :=
  c6_retry_bounded_scenario.2.1 (fun _ => .error "network unreachable") 3
    (by decide) (fun _ => ⟨"network unreachable", rfl⟩)

/-! ### Download idempotence -/

/-- Claim C8: `download_audio` is idempotent — on a track whose file is
already present it returns the same track immediately and performs zero
fetch attempts. -/
theorem c8_download_idempotent :
    ∀ (fe : String → Bool) (attempt : Nat → Except String Song) (song : Song),
      is_downloaded fe song = true →
      download_audio fe attempt song = (.ok song, 0) := by
  intro fe attempt song h
  simp [download_audio, h]

/-- Witness for C8 on a concrete cached track and a fetch oracle that would
fail if invoked. -/
theorem c8_download_idempotent_witness :
    download_audio (fun _ => true)
      (fun _ => (.error "must not be called" : Except String Song)) c8_song =
      (.ok c8_song, 0) :=
  c8_download_idempotent (fun _ => true)
    (fun _ => (.error "must not be called" : Except String Song)) c8_song (by decide)

end DCBot
